import Mathlib

/-!
Verification of the Streamlit web UI script `src/ai_compatibility.py`.

The script is modelled by a shallow embedding:
* the mutable config store `config.app` and the Streamlit session state are
  modelled as partial maps `String → Option String`;
* Python string operations used by the script (`str.lower`, `str.endswith`,
  `list.sort` on strings, f-string key construction) are modelled on the
  character data of Lean strings so that everything is executable;
* side effects (disk writes, `os.system` calls, logging, raised exceptions)
  are reified as explicit data in return values.
-/

/-- Model of Python `str.lower` on a single character (ASCII case folding,
which is all the script applies it to). -/
def pyLowerChar (c : Char) : Char := c.toLower

/-- Model of Python `str.lower`: lowercases every character. -/
def pyLower (s : String) : String := String.mk (s.data.map pyLowerChar)

/-- Model of Python `str.endswith`: the suffix's characters are a suffix of
the string's characters. -/
def pyEndsWith (s suffix : String) : Bool := List.isSuffixOf suffix.data s.data

/-- Lexicographic comparison of character lists by code point, the order
Python `list.sort()` uses on strings. -/
def lexLe : List Char → List Char → Bool
  | [], _ => true
  | _ :: _, [] => false
  | a :: as, b :: bs =>
    if a.toNat < b.toNat then true
    else if b.toNat < a.toNat then false
    else lexLe as bs

/-- The ascending string order of Python `list.sort()`. -/
def pyStrLe (a b : String) : Prop := lexLe a.data b.data = true

instance : DecidableRel pyStrLe := fun a b => instDecidableEqBool (lexLe a.data b.data) true

theorem lexLe_cons_iff (a b : Char) (as bs : List Char) :
    lexLe (a :: as) (b :: bs) = true ↔
      a.toNat < b.toNat ∨ (a.toNat = b.toNat ∧ lexLe as bs = true) := by
  simp only [lexLe]
  split_ifs with h1 h2
  · simp
    omega
  · simp
    omega
  · constructor
    · intro h
      right
      exact ⟨by omega, h⟩
    · rintro (h | ⟨h, hl⟩)
      · omega
      · exact hl

theorem lexLe_total : ∀ as bs : List Char, lexLe as bs = true ∨ lexLe bs as = true := by
  intro as
  induction as with
  | nil =>
    intro bs
    left
    simp [lexLe]
  | cons a as ih =>
    intro bs
    cases bs with
    | nil =>
      right
      simp [lexLe]
    | cons b bs =>
      rcases Nat.lt_trichotomy a.toNat b.toNat with h | h | h
      · left
        rw [lexLe_cons_iff]
        exact Or.inl h
      · rcases ih bs with hl | hl
        · left
          rw [lexLe_cons_iff]
          exact Or.inr ⟨h, hl⟩
        · right
          rw [lexLe_cons_iff]
          exact Or.inr ⟨h.symm, hl⟩
      · right
        rw [lexLe_cons_iff]
        exact Or.inl h

instance : IsTotal String pyStrLe := ⟨fun a b => lexLe_total a.data b.data⟩

theorem lexLe_trans : ∀ as bs cs : List Char,
    lexLe as bs = true → lexLe bs cs = true → lexLe as cs = true := by
  intro as
  induction as with
  | nil =>
    intro bs cs _ _
    simp [lexLe]
  | cons a as ih =>
    intro bs cs h1 h2
    cases bs with
    | nil => simp [lexLe] at h1
    | cons b bs =>
      cases cs with
      | nil => simp [lexLe] at h2
      | cons c cs =>
        rw [lexLe_cons_iff] at h1 h2 ⊢
        rcases h1 with h1 | ⟨h1e, h1l⟩
        · rcases h2 with h2 | ⟨h2e, _⟩
          · exact Or.inl (by omega)
          · exact Or.inl (by omega)
        · rcases h2 with h2 | ⟨h2e, h2l⟩
          · exact Or.inl (by omega)
          · exact Or.inr ⟨by omega, ih bs cs h1l h2l⟩

instance : IsTrans String pyStrLe :=
  ⟨fun a b c h1 h2 => lexLe_trans a.data b.data c.data h1 h2⟩

/-- The mutable `config.app` settings mapping (key to value); an absent key
is `none`, and `config.app.get(k, d)` supplies the default `d`. -/
abbrev ConfigApp := String → Option String

/-- `config.app.get(k, d)`. -/
def cfgGet (c : ConfigApp) (k d : String) : String := (c k).getD d

/-- `config.app[k] = v`. -/
def cfgSet (c : ConfigApp) (k v : String) : ConfigApp :=
  fun k2 => if k2 = k then some v else c k2

theorem string_append_left_cancel {p a b : String} (h : p ++ a = p ++ b) : a = b := by
  have hd : p.data ++ a.data = p.data ++ b.data := by
    rw [← String.data_append, ← String.data_append, h]
  have hab : a.data = b.data := List.append_cancel_left hd
  cases a
  cases b
  exact congrArg String.mk hab

theorem string_append_ne_of_ne {p a b : String} (h : a ≠ b) : p ++ a ≠ p ++ b :=
  fun hc => h (string_append_left_cancel hc)

/-- The enumerated provider list of the settings panel
(src/ai_compatibility.py lines 193-205). -/
def llm_providers : List String :=
  ["OpenAI", "Moonshot", "Azure", "Qwen", "DeepSeek", "Gemini", "Ollama",
   "G4f", "OneAPI", "Cloudflare", "ERNIE"]

/-- The selectbox index computation (lines 206-211): lowercase the saved
`llm_provider` value (default `"OpenAI"`), find the first provider whose
lowercased name equals it, and fall back to index 0 when none matches. -/
def saved_llm_provider_index (cfg : ConfigApp) : Nat :=
  (llm_providers.findIdx?
    (fun provider => pyLower provider == pyLower (cfgGet cfg "llm_provider" "OpenAI"))).getD 0

/-- Selecting a provider from the selectbox stores its lowercased name under
`llm_provider` (lines 219-220). -/
def selectProvider (cfg : ConfigApp) (selected : String) : ConfigApp :=
  cfgSet cfg "llm_provider" (pyLower selected)

/-- The five credential form fields of the settings panel. -/
structure Creds where
  api_key : String
  secret_key : String
  base_url : String
  model_name : String
  account_id : String
deriving DecidableEq

/-- The credential reads seeding the form fields (lines 222-228): each field
is read from the active provider's namespaced key with default `""`. -/
def readCreds (cfg : ConfigApp) (p : String) : Creds where
  api_key := cfgGet cfg (p ++ "_api_key") ""
  secret_key := cfgGet cfg (p ++ "_secret_key") ""
  base_url := cfgGet cfg (p ++ "_base_url") ""
  model_name := cfgGet cfg (p ++ "_model_name") ""
  account_id := cfgGet cfg (p ++ "_account_id") ""

/-- The five namespaced keys written by the Save handler. -/
def credKeys (p : String) : List String :=
  [p ++ "_api_key", p ++ "_secret_key", p ++ "_base_url",
   p ++ "_model_name", p ++ "_account_id"]

/-- The five assignments of the Save handler (lines 302-306), in source
order. -/
def saveCreds (cfg : ConfigApp) (p : String) (c : Creds) : ConfigApp :=
  cfgSet
    (cfgSet
      (cfgSet
        (cfgSet
          (cfgSet cfg (p ++ "_api_key") c.api_key)
          (p ++ "_secret_key") c.secret_key)
        (p ++ "_base_url") c.base_url)
      (p ++ "_model_name") c.model_name)
    (p ++ "_account_id") c.account_id

/-- Result of the Save button handler: the updated `config.app` mapping and
whether `config.save()` (the synchronous disk write) was invoked. -/
structure SaveOutcome where
  app : ConfigApp
  diskWrite : Bool

/-- The Save button handler (lines 301-307): write the five namespaced
credential keys, then call `config.save()`. -/
def saveConfigHandler (cfg : ConfigApp) (p : String) (c : Creds) : SaveOutcome where
  app := saveCreds cfg p c
  diskWrite := true

/-- The save/switch/switch-back scenario: with `p` active, save credentials
`c`; switch the active provider to `q`; switch back to `p`. -/
def roundtripConfig (cfg : ConfigApp) (p q : String) (c : Creds) : ConfigApp :=
  selectProvider
    (selectProvider (saveConfigHandler (selectProvider cfg p) (pyLower p) c).app q) p

/-- Ollama help text (lines 238-245). -/
def tipsOllama : String :=
  "##### Ollama配置说明\n- **API Key**: 随便填写，比如 123\n- **Base Url**: 一般为 http://localhost:11434/v1\n   - 如果 `MoneyPrinterTurbo` 和 `Ollama` **不在同一台机器上**，需要填写 `Ollama` 机器的IP地址\n   - 如果 `MoneyPrinterTurbo` 是 `Docker` 部署，建议填写 `http://host.docker.internal:11434/v1`\n- **Model Name**: 使用 `ollama list` 查看，比如 `qwen:7b`"

/-- OpenAI help text (lines 250-253). -/
def tipsOpenai : String :=
  "##### OpenAI配置说明\n- **API Key**: 登录 [OpenAI](https://platform.openai.com) 后，访问 [API Keys](https://platform.openai.com/account/api-keys)"

/-- Azure help text (lines 262-267). -/
def tipsAzure : String :=
  "##### Azure配置说明\n- **API Key**: 登录 [Azure](https://portal.azure.com) 后，访问 Keys and Endpoint\n- **Base Url**: 登录 [Azure](https://portal.azure.com) 后，访问 Keys and Endpoint\n- **Model Name**: `Azure` 模型名称，不需要填写完整，例如: `gpt-35-turbo`"

/-- Moonshot help text (lines 274-280). -/
def tipsMoonshot : String :=
  "##### Moonshot配置说明\n- **Base Url**: 一般为 http://localhost:8080/v1\n    - 如果 `MoneyPrinterTurbo` 和 `Moonshot` **不在同一台机器上**，需要填写 `Moonshot` 机器的IP地址\n    - 如果 `MoneyPrinterTurbo` 是 `Docker` 部署，建议填写 `http://host.docker.internal:8080/v1`\n- **Model Name**: 使用 `moonshot list` 查看"

/-- The provider defaulting / help-text block (lines 222-283): read the five
namespaced fields for the active (lowercased) provider `p`, then run the four
provider-special-case `if` blocks in source order. Python's truthiness test
`if not x` on a string is `x = ""`. Returns the resulting form field values
and the `tips` string (`""` when no block matched; a non-empty `tips` is what
gets rendered by `st.markdown`). -/
def applyProviderDefaults (cfg : ConfigApp) (p : String) : Creds × String :=
  let c0 := readCreds cfg p
  let c1 :=
    if p = "ollama" then
      { c0 with
        model_name := if c0.model_name = "" then "qwen:7b" else c0.model_name,
        base_url := if c0.base_url = "" then "http://localhost:11434/v1" else c0.base_url }
    else c0
  let tips1 := if p = "ollama" then tipsOllama else ""
  let c2 :=
    if p = "openai" then
      { c1 with
        api_key := if c1.api_key = "" then cfgGet cfg "openai_api_key" "" else c1.api_key }
    else c1
  let tips2 := if p = "openai" then tipsOpenai else tips1
  let c3 :=
    if p = "azure" then
      { c2 with
        api_key := if c2.api_key = "" then cfgGet cfg "azure_api_key" "" else c2.api_key,
        base_url := if c2.base_url = "" then cfgGet cfg "azure_base_url" "" else c2.base_url,
        model_name :=
          if c2.model_name = "" then cfgGet cfg "azure_model_name" "" else c2.model_name }
    else c2
  let tips3 := if p = "azure" then tipsAzure else tips2
  let c4 :=
    if p = "moonshot" then
      { c3 with
        base_url := if c3.base_url = "" then cfgGet cfg "moonshot_base_url" "" else c3.base_url,
        model_name :=
          if c3.model_name = "" then cfgGet cfg "moonshot_model_name" "" else c3.model_name }
    else c3
  let tips4 := if p = "moonshot" then tipsMoonshot else tips3
  (c4, tips4)

/-- The Pydantic-style `ConfigModel` (lines 374-379): `api_key` is the only
required field, the other four are `Optional[str]` defaulting to `None`. -/
structure ConfigModel where
  api_key : String
  secret_key : Option String
  base_url : Option String
  model_name : Option String
  account_id : Option String
deriving DecidableEq

/-- An input mapping passed to `validate_config` (field name to string
value; an absent field is `none`). -/
abbrev ConfigData := String → Option String

/-- Construction of `ConfigModel(**config_data)`: validation fails (raising
`ValidationError`) exactly when the required `api_key` field is missing;
optional fields default to `None`. -/
def mkConfigModel (d : ConfigData) : Except String ConfigModel :=
  match d "api_key" with
  | some v =>
    Except.ok ⟨v, d "secret_key", d "base_url", d "model_name", d "account_id"⟩
  | none => Except.error "Field required: api_key"

/-- `validate_config` (lines 381-387): build the model; on `ValidationError`
log the error and return `None`. The result is the returned value paired with
the list of logged error messages; the function is total, so no exception
reaches the caller. -/
def validate_config (d : ConfigData) : Option ConfigModel × List String :=
  match mkConfigModel d with
  | Except.ok m => (some m, [])
  | Except.error e => (none, ["Configuration validation error: " ++ e])

/-- One entry of the loaded locale table: the `"Language"` display name and
the `"Translation"` key/value mapping (each possibly absent, as `dict.get`
allows). -/
structure UiLocale where
  language : Option String
  translation : Option (String → Option String)

/-- `tr` (lines 156-158):
`locales.get(ui_language, {}).get("Translation", {}).get(key, key)`. -/
def tr (locales : String → Option UiLocale) (ui_language key : String) : String :=
  let transTable :=
    match locales ui_language with
    | some l =>
      match l.translation with
      | some t => t
      | none => fun _ => none
    | none => fun _ => none
  (transTable key).getD key

/-- The Streamlit session state: a partial map from key to string value;
`k not in st.session_state` is `s k = none`. -/
abbrev Session := String → Option String

/-- `st.session_state[k] = v`. -/
def sset (s : Session) (k v : String) : Session :=
  fun k2 => if k2 = k then some v else s k2

/-- The session-state initialization block (lines 65-72): each of the four
keys is set to its default only when absent. -/
def initSessionState (s : Session) (uiLangDefault : String) : Session :=
  let s1 := if s "video_subject" = none then sset s "video_subject" "" else s
  let s2 := if s1 "video_script" = none then sset s1 "video_script" "" else s1
  let s3 := if s2 "video_terms" = none then sset s2 "video_terms" "" else s2
  let s4 := if s3 "ui_language" = none then sset s3 "ui_language" uiLangDefault else s3
  s4

/-- A fresh session: no key set. -/
def freshSession : Session := fun _ => none

/-- The shell commands `open_task_folder` can invoke via `os.system`. -/
inductive SysCall where
  | startCmd (path : String)
  | openCmd (path : String)
deriving DecidableEq

/-- The body of `open_task_folder` (lines 96-102): when the task path
exists, run `start` on Windows and `open` on Darwin; any other OS value
falls through both `if`s and nothing is invoked. -/
def open_task_folder_dispatch (osName : String) (pathExists : Bool) (path : String) :
    List SysCall :=
  if pathExists then
    (if osName = "Windows" then [SysCall.startCmd path] else []) ++
      (if osName = "Darwin" then [SysCall.openCmd path] else [])
  else []

/-- `open_task_folder` (lines 94-104) with its `try`/`except` wrapper: a
raised exception (modelled by `raised`) is caught and logged via
`logger.error`; the result is the invoked commands paired with the logged
messages, and the `Except` layer records whether an exception escapes to the
caller (it never does). -/
def open_task_folder (osName : String) (pathExists : Bool) (path : String)
    (raised : Option String) : Except String (List SysCall × List String) :=
  match raised with
  | none => Except.ok (open_task_folder_dispatch osName pathExists path, [])
  | some e => Except.ok ([], [e])

/-- The extension filter of the `get_all_fonts` walk loop (line 79). -/
def fontFilter (file : String) : Bool :=
  pyEndsWith file ".ttf" || pyEndsWith file ".ttc"

/-- `get_all_fonts` (lines 75-82), over the list of file names produced by
the `os.walk` traversal: collect the names ending in `.ttf` or `.ttc`, then
`fonts.sort()` (ascending code-point order). -/
def get_all_fonts (walkFiles : List String) : List String :=
  List.insertionSort pyStrLe (walkFiles.filter fontFilter)

theorem sset_preserve_step (s : Session) (key val k v : String) (h : s k = some v) :
    (if s key = none then sset s key val else s) k = some v := by
  by_cases hkey : s key = none
  · rw [if_pos hkey]
    simp only [sset]
    by_cases hk : k = key
    · subst hk
      rw [h] at hkey
      exact absurd hkey (by simp)
    · rw [if_neg hk]
      exact h
  · rw [if_neg hkey]
    exact h

theorem provider_keys_not_llm_provider :
    ∀ p ∈ llm_providers,
      pyLower p ++ "_api_key" ≠ "llm_provider" ∧
      pyLower p ++ "_base_url" ≠ "llm_provider" ∧
      pyLower p ++ "_model_name" ≠ "llm_provider" := by
  decide

/-- Claim C1: for every provider `p` of the enumerated list, saving
credentials while `p` is active, switching the active provider to another
enumerated provider `q`, and switching back to `p` reads the exact saved
`api_key`/`base_url`/`model_name` values back from the config store under
`p`'s namespace. -/
theorem save_switch_roundtrip (cfg : ConfigApp) (p q : String) (c : Creds)
    (hp : p ∈ llm_providers) (hq : q ∈ llm_providers) :
    (readCreds (roundtripConfig cfg p q c) (pyLower p)).api_key = c.api_key ∧
    (readCreds (roundtripConfig cfg p q c) (pyLower p)).base_url = c.base_url ∧
    (readCreds (roundtripConfig cfg p q c) (pyLower p)).model_name = c.model_name := by
  obtain ⟨ha, hb, hm⟩ := provider_keys_not_llm_provider p hp
  have d1 : pyLower p ++ "_api_key" ≠ pyLower p ++ "_account_id" :=
    string_append_ne_of_ne (by decide)
  have d2 : pyLower p ++ "_api_key" ≠ pyLower p ++ "_model_name" :=
    string_append_ne_of_ne (by decide)
  have d3 : pyLower p ++ "_api_key" ≠ pyLower p ++ "_base_url" :=
    string_append_ne_of_ne (by decide)
  have d4 : pyLower p ++ "_api_key" ≠ pyLower p ++ "_secret_key" :=
    string_append_ne_of_ne (by decide)
  have d5 : pyLower p ++ "_base_url" ≠ pyLower p ++ "_account_id" :=
    string_append_ne_of_ne (by decide)
  have d6 : pyLower p ++ "_base_url" ≠ pyLower p ++ "_model_name" :=
    string_append_ne_of_ne (by decide)
  have d7 : pyLower p ++ "_model_name" ≠ pyLower p ++ "_account_id" :=
    string_append_ne_of_ne (by decide)
  refine ⟨?_, ?_, ?_⟩ <;>
    simp [roundtripConfig, selectProvider, saveConfigHandler, saveCreds, readCreds,
      cfgGet, cfgSet, ha, hb, hm, d1, d2, d3, d4, d5, d6, d7]

/-- Witness for C1: a concrete save/switch/switch-back run for `"OpenAI"`
and `"Azure"` restores the saved values. -/
theorem save_switch_roundtrip_witness :
    (readCreds (roundtripConfig (fun _ => none) "OpenAI" "Azure"
        ⟨"sk-1", "sec", "https://api.openai.com/v1", "gpt-4o", "acct"⟩) (pyLower "OpenAI")).api_key
      = "sk-1" ∧
    (readCreds (roundtripConfig (fun _ => none) "OpenAI" "Azure"
        ⟨"sk-1", "sec", "https://api.openai.com/v1", "gpt-4o", "acct"⟩) (pyLower "OpenAI")).base_url
      = "https://api.openai.com/v1" ∧
    (readCreds (roundtripConfig (fun _ => none) "OpenAI" "Azure"
        ⟨"sk-1", "sec", "https://api.openai.com/v1", "gpt-4o", "acct"⟩) (pyLower "OpenAI")).model_name
      = "gpt-4o" :=
  save_switch_roundtrip (fun _ => none) "OpenAI" "Azure"
    ⟨"sk-1", "sec", "https://api.openai.com/v1", "gpt-4o", "acct"⟩ (by decide) (by decide)

/-- Claim C2: `validate_config` returns a non-null model (and logs nothing)
when the required `api_key` field is present, and returns `None` with a
logged validation error when `api_key` is omitted; being a total function
into `Option ConfigModel × List String`, it never propagates an exception. -/
theorem validate_config_required_api_key (d : ConfigData) :
    ((d "api_key").isSome →
      (validate_config d).1.isSome = true ∧ (validate_config d).2 = []) ∧
    (d "api_key" = none →
      (validate_config d).1 = none ∧ (validate_config d).2 ≠ []) := by
  constructor
  · intro h
    obtain ⟨v, hv⟩ := Option.isSome_iff_exists.mp h
    simp [validate_config, mkConfigModel, hv]
  · intro h
    simp [validate_config, mkConfigModel, h]

/-- Witness for C2: a payload with `api_key` validates; a payload without it
yields `none` plus a logged error. -/
theorem validate_config_witness :
    ((validate_config (fun k => if k = "api_key" then some "example_key" else none)).1.isSome
        = true ∧
      (validate_config (fun k => if k = "api_key" then some "example_key" else none)).2 = []) ∧
    ((validate_config (fun _ => none)).1 = none ∧ (validate_config (fun _ => none)).2 ≠ []) :=
  ⟨(validate_config_required_api_key
      (fun k => if k = "api_key" then some "example_key" else none)).1 (by decide),
   (validate_config_required_api_key (fun _ => none)).2 rfl⟩

/-- Claim C3: the Save handler writes exactly the five namespaced credential
keys of the active provider, triggers the disk write, and leaves every other
key of the config store unchanged. -/
theorem save_writes_exactly_credential_keys (cfg : ConfigApp) (p : String) (c : Creds) :
    (saveConfigHandler cfg p c).diskWrite = true ∧
    (saveConfigHandler cfg p c).app (p ++ "_api_key") = some c.api_key ∧
    (saveConfigHandler cfg p c).app (p ++ "_secret_key") = some c.secret_key ∧
    (saveConfigHandler cfg p c).app (p ++ "_base_url") = some c.base_url ∧
    (saveConfigHandler cfg p c).app (p ++ "_model_name") = some c.model_name ∧
    (saveConfigHandler cfg p c).app (p ++ "_account_id") = some c.account_id ∧
    ∀ k, k ∉ credKeys p → (saveConfigHandler cfg p c).app k = cfg k := by
  have d1 : p ++ "_api_key" ≠ p ++ "_account_id" := string_append_ne_of_ne (by decide)
  have d2 : p ++ "_api_key" ≠ p ++ "_model_name" := string_append_ne_of_ne (by decide)
  have d3 : p ++ "_api_key" ≠ p ++ "_base_url" := string_append_ne_of_ne (by decide)
  have d4 : p ++ "_api_key" ≠ p ++ "_secret_key" := string_append_ne_of_ne (by decide)
  have d5 : p ++ "_secret_key" ≠ p ++ "_account_id" := string_append_ne_of_ne (by decide)
  have d6 : p ++ "_secret_key" ≠ p ++ "_model_name" := string_append_ne_of_ne (by decide)
  have d7 : p ++ "_secret_key" ≠ p ++ "_base_url" := string_append_ne_of_ne (by decide)
  have d8 : p ++ "_base_url" ≠ p ++ "_account_id" := string_append_ne_of_ne (by decide)
  have d9 : p ++ "_base_url" ≠ p ++ "_model_name" := string_append_ne_of_ne (by decide)
  have d10 : p ++ "_model_name" ≠ p ++ "_account_id" := string_append_ne_of_ne (by decide)
  refine ⟨rfl, ?_, ?_, ?_, ?_, ?_, ?_⟩
  · simp [saveConfigHandler, saveCreds, cfgSet, d1, d2, d3, d4]
  · simp [saveConfigHandler, saveCreds, cfgSet, d5, d6, d7]
  · simp [saveConfigHandler, saveCreds, cfgSet, d8, d9]
  · simp [saveConfigHandler, saveCreds, cfgSet, d10]
  · simp [saveConfigHandler, saveCreds, cfgSet]
  · intro k hk
    simp only [credKeys, List.mem_cons, List.not_mem_nil, or_false] at hk
    push_neg at hk
    obtain ⟨h1, h2, h3, h4, h5⟩ := hk
    simp [saveConfigHandler, saveCreds, cfgSet, h1, h2, h3, h4, h5]

/-- Witness for C3: a concrete save under provider `"openai"` leaves the
unrelated key `"pexels_api_key"` unchanged. -/
theorem save_writes_exactly_credential_keys_witness :
    (saveConfigHandler (fun k => if k = "pexels_api_key" then some "px" else none) "openai"
        ⟨"k", "s", "b", "m", "a"⟩).app "pexels_api_key" = some "px" :=
  (save_writes_exactly_credential_keys
      (fun k => if k = "pexels_api_key" then some "px" else none) "openai"
      ⟨"k", "s", "b", "m", "a"⟩).2.2.2.2.2.2 "pexels_api_key" (by decide)

/-- Claim C4: for a locale present in the loaded locale table, `tr` returns
the translated string when the key is in that locale's Translation table,
and the key itself when it is absent. -/
theorem tr_translation_lookup (locales : String → Option UiLocale) (lang key v : String)
    (l : UiLocale) (t : String → Option String)
    (hl : locales lang = some l) (ht : l.translation = some t) :
    (t key = some v → tr locales lang key = v) ∧
    (t key = none → tr locales lang key = key) := by
  constructor <;> intro h <;> simp [tr, hl, ht, h]

/-- Witness for C4: a one-locale table translates a present key and echoes
an absent key. -/
theorem tr_translation_lookup_witness :
    tr (fun c => if c = "zh-CN" then
        some ⟨some "简体中文", some (fun k => if k = "Get Help" then some "获取帮助" else none)⟩
      else none) "zh-CN" "Get Help" = "获取帮助" ∧
    tr (fun c => if c = "zh-CN" then
        some ⟨some "简体中文", some (fun k => if k = "Get Help" then some "获取帮助" else none)⟩
      else none) "zh-CN" "Absent Key" = "Absent Key" :=
  ⟨(tr_translation_lookup _ "zh-CN" "Get Help" "获取帮助" _
      (fun k => if k = "Get Help" then some "获取帮助" else none) rfl rfl).1 rfl,
   (tr_translation_lookup _ "zh-CN" "Absent Key" ""  _
      (fun k => if k = "Get Help" then some "获取帮助" else none) rfl rfl).2 rfl⟩

/-- Claim C5: `get_all_fonts` returns exactly the file names ending in
`.ttf` or `.ttc` (a permutation of the filtered walk list), sorted
ascending; on the walk list `b.ttf, a.ttc, x.txt` it returns
`["a.ttc", "b.ttf"]`. -/
theorem get_all_fonts_spec (walkFiles : List String) :
    (get_all_fonts walkFiles).Perm (walkFiles.filter fontFilter) ∧
    List.Sorted pyStrLe (get_all_fonts walkFiles) ∧
    get_all_fonts ["b.ttf", "a.ttc", "x.txt"] = ["a.ttc", "b.ttf"] :=
  ⟨List.perm_insertionSort pyStrLe (walkFiles.filter fontFilter),
   List.sorted_insertionSort pyStrLe (walkFiles.filter fontFilter),
   by decide⟩

/-- Claim C6 counterexample: selecting `azure` with every saved field empty
does NOT pre-populate any default base URL or model name — both form fields
stay `""` (only the help text is set) — so the defaulting claim fails for
`azure` (and likewise `openai`, `moonshot`): the special-case blocks for
those providers merely re-read the same namespaced keys. -/
theorem provider_defaults_azure_counterexample :
    (applyProviderDefaults (fun _ => none) "azure").1.base_url = "" ∧
    (applyProviderDefaults (fun _ => none) "azure").1.model_name = "" :=
  ⟨rfl, rfl⟩

/-- Claim C6 (amended): with its saved fields empty, `ollama` is
pre-populated with model name `"qwen:7b"` and base URL
`"http://localhost:11434/v1"`; all four special-cased providers get
non-empty provider-specific help text; for `openai`, `azure` and
`moonshot` no default is assigned: their blocks at most re-read the same
namespaced config keys, so empty saved base URL / model name fields remain
empty. -/
theorem provider_defaults_amended (cfg : ConfigApp)
    (hom : cfgGet cfg "ollama_model_name" "" = "")
    (hob : cfgGet cfg "ollama_base_url" "" = "")
    (hpb : cfgGet cfg "openai_base_url" "" = "")
    (hpm : cfgGet cfg "openai_model_name" "" = "")
    (hab : cfgGet cfg "azure_base_url" "" = "")
    (ham : cfgGet cfg "azure_model_name" "" = "")
    (hmb : cfgGet cfg "moonshot_base_url" "" = "")
    (hmm : cfgGet cfg "moonshot_model_name" "" = "") :
    (applyProviderDefaults cfg "ollama").1.model_name = "qwen:7b" ∧
    (applyProviderDefaults cfg "ollama").1.base_url = "http://localhost:11434/v1" ∧
    (applyProviderDefaults cfg "ollama").2 = tipsOllama ∧ tipsOllama ≠ "" ∧
    (applyProviderDefaults cfg "openai").2 = tipsOpenai ∧ tipsOpenai ≠ "" ∧
    (applyProviderDefaults cfg "azure").2 = tipsAzure ∧ tipsAzure ≠ "" ∧
    (applyProviderDefaults cfg "moonshot").2 = tipsMoonshot ∧ tipsMoonshot ≠ "" ∧
    (applyProviderDefaults cfg "openai").1.base_url = "" ∧
    (applyProviderDefaults cfg "openai").1.model_name = "" ∧
    (applyProviderDefaults cfg "azure").1.base_url = "" ∧
    (applyProviderDefaults cfg "azure").1.model_name = "" ∧
    (applyProviderDefaults cfg "moonshot").1.base_url = "" ∧
    (applyProviderDefaults cfg "moonshot").1.model_name = "" := by
  refine ⟨?_, ?_, ?_, ?_, ?_, ?_, ?_, ?_, ?_, ?_, ?_, ?_, ?_, ?_, ?_, ?_⟩ <;>
    simp [applyProviderDefaults, readCreds, hom, hob, hpb, hpm, hab, ham, hmb, hmm,
      tipsOllama, tipsOpenai, tipsAzure, tipsMoonshot]

/-- Witness for C6 (amended): the amended statement at the empty config. -/
theorem provider_defaults_amended_witness :
    (applyProviderDefaults (fun _ => none) "ollama").1.model_name = "qwen:7b" ∧
    (applyProviderDefaults (fun _ => none) "ollama").1.base_url = "http://localhost:11434/v1" ∧
    (applyProviderDefaults (fun _ => none) "ollama").2 = tipsOllama ∧ tipsOllama ≠ "" ∧
    (applyProviderDefaults (fun _ => none) "openai").2 = tipsOpenai ∧ tipsOpenai ≠ "" ∧
    (applyProviderDefaults (fun _ => none) "azure").2 = tipsAzure ∧ tipsAzure ≠ "" ∧
    (applyProviderDefaults (fun _ => none) "moonshot").2 = tipsMoonshot ∧ tipsMoonshot ≠ "" ∧
    (applyProviderDefaults (fun _ => none) "openai").1.base_url = "" ∧
    (applyProviderDefaults (fun _ => none) "openai").1.model_name = "" ∧
    (applyProviderDefaults (fun _ => none) "azure").1.base_url = "" ∧
    (applyProviderDefaults (fun _ => none) "azure").1.model_name = "" ∧
    (applyProviderDefaults (fun _ => none) "moonshot").1.base_url = "" ∧
    (applyProviderDefaults (fun _ => none) "moonshot").1.model_name = "" :=
  provider_defaults_amended (fun _ => none) rfl rfl rfl rfl rfl rfl rfl rfl

/-- Claim C7: `open_task_folder` runs `start` on Windows and `open` on
Darwin when the task path exists, does nothing on any other OS value or when
the path does not exist, and its broad `except` catches and logs every
raised exception instead of propagating it. -/
theorem open_task_folder_spec (osName : String) (pathExists : Bool) (path : String)
    (raised : Option String) :
    (osName = "Windows" →
      open_task_folder_dispatch osName true path = [SysCall.startCmd path]) ∧
    (osName = "Darwin" →
      open_task_folder_dispatch osName true path = [SysCall.openCmd path]) ∧
    (osName ≠ "Windows" → osName ≠ "Darwin" →
      open_task_folder_dispatch osName pathExists path = []) ∧
    open_task_folder_dispatch osName false path = [] ∧
    (open_task_folder osName pathExists path raised).isOk = true ∧
    (∀ e, open_task_folder osName pathExists path (some e) = Except.ok ([], [e])) := by
  refine ⟨?_, ?_, ?_, ?_, ?_, ?_⟩
  · intro h
    subst h
    simp [open_task_folder_dispatch]
  · intro h
    subst h
    simp [open_task_folder_dispatch]
  · intro h1 h2
    simp [open_task_folder_dispatch, h1, h2]
  · simp [open_task_folder_dispatch]
  · cases raised <;> rfl
  · intro e
    simp [open_task_folder]

/-- Witness for C7: concrete runs on Windows, Darwin, Linux, a missing
path, and a raised exception. -/
theorem open_task_folder_witness :
    open_task_folder_dispatch "Windows" true "storage/tasks/t1" =
      [SysCall.startCmd "storage/tasks/t1"] ∧
    open_task_folder_dispatch "Darwin" true "storage/tasks/t1" =
      [SysCall.openCmd "storage/tasks/t1"] ∧
    open_task_folder_dispatch "Linux" true "storage/tasks/t1" = [] ∧
    open_task_folder_dispatch "Windows" false "storage/tasks/t1" = [] ∧
    (open_task_folder "Linux" true "storage/tasks/t1" (some "boom")).isOk = true :=
  ⟨(open_task_folder_spec "Windows" true "storage/tasks/t1" none).1 rfl,
   (open_task_folder_spec "Darwin" true "storage/tasks/t1" none).2.1 rfl,
   (open_task_folder_spec "Linux" true "storage/tasks/t1" none).2.2.1 (by decide) (by decide),
   (open_task_folder_spec "Windows" false "storage/tasks/t1" none).2.2.2.1,
   (open_task_folder_spec "Linux" true "storage/tasks/t1" (some "boom")).2.2.2.2.1⟩

/-- Claim C8: in a fresh session the initialization block sets
`video_subject`, `video_script` and `video_terms` to `""`, and it never
overwrites a key that is already present. -/
theorem session_state_defaults (s : Session) (uiLangDefault k v : String) :
    initSessionState freshSession uiLangDefault "video_subject" = some "" ∧
    initSessionState freshSession uiLangDefault "video_script" = some "" ∧
    initSessionState freshSession uiLangDefault "video_terms" = some "" ∧
    (s k = some v → initSessionState s uiLangDefault k = some v) := by
  refine ⟨rfl, rfl, rfl, ?_⟩
  intro h
  exact sset_preserve_step _ "ui_language" uiLangDefault k v
    (sset_preserve_step _ "video_terms" "" k v
      (sset_preserve_step _ "video_script" "" k v
        (sset_preserve_step s "video_subject" "" k v h)))

/-- Witness for C8: the fresh-session defaults, and a pre-set
`video_subject` survives initialization. -/
theorem session_state_defaults_witness :
    initSessionState freshSession "en-US" "video_subject" = some "" ∧
    initSessionState freshSession "en-US" "video_script" = some "" ∧
    initSessionState freshSession "en-US" "video_terms" = some "" ∧
    initSessionState (fun k2 => if k2 = "video_subject" then some "a cat video" else none)
      "en-US" "video_subject" = some "a cat video" :=
  ⟨(session_state_defaults freshSession "en-US" "x" "y").1,
   (session_state_defaults freshSession "en-US" "x" "y").2.1,
   (session_state_defaults freshSession "en-US" "x" "y").2.2.1,
   (session_state_defaults (fun k2 => if k2 = "video_subject" then some "a cat video" else none)
      "en-US" "video_subject" "a cat video").2.2.2 rfl⟩

/-- Claim C9: when the saved `llm_provider` value matches none of the eleven
enumerated providers (case-insensitively), the selectbox index falls back to
0, making `"OpenAI"` the active provider. -/
theorem provider_fallback_to_openai (cfg : ConfigApp)
    (h : ∀ q ∈ llm_providers, pyLower q ≠ pyLower (cfgGet cfg "llm_provider" "OpenAI")) :
    saved_llm_provider_index cfg = 0 ∧
    llm_providers.get? (saved_llm_provider_index cfg) = some "OpenAI" := by
  have hnone : llm_providers.findIdx?
      (fun provider => pyLower provider == pyLower (cfgGet cfg "llm_provider" "OpenAI"))
      = none := by
    rw [List.findIdx?_eq_none_iff]
    intro x hx
    simpa using h x hx
  have h0 : saved_llm_provider_index cfg = 0 := by
    simp [saved_llm_provider_index, hnone]
  refine ⟨h0, ?_⟩
  rw [h0]
  rfl

/-- Witness for C9: the unmatched saved value `"foobar"` selects index 0,
i.e. `"OpenAI"`. -/
theorem provider_fallback_to_openai_witness :
    saved_llm_provider_index (fun k => if k = "llm_provider" then some "foobar" else none)
      = 0 ∧
    llm_providers.get?
      (saved_llm_provider_index
        (fun k => if k = "llm_provider" then some "foobar" else none)) = some "OpenAI" :=
  provider_fallback_to_openai (fun k => if k = "llm_provider" then some "foobar" else none)
    (by decide)

/-- Claim C10: when the active `ui_language` is not a locale code of the
loaded locale table, `tr` falls back through the empty mapping at both
levels and returns the key unchanged (and, being a total function, cannot
raise). -/
theorem tr_unknown_language (locales : String → Option UiLocale) (lang key : String)
    (h : locales lang = none) : tr locales lang key = key := by
  simp [tr, h]

/-- Witness for C10: an empty locale table echoes any key. -/
theorem tr_unknown_language_witness :
    tr (fun _ => none) "xx-XX" "Get Help" = "Get Help" :=
  tr_unknown_language (fun _ => none) "xx-XX" "Get Help" rfl
